import Mathlib

/-!
# Verification of the orbit container-orchestrator core

Shallow embedding of the control-plane code in `src/config/mod.rs`,
`src/config/utils.rs` and `src/container/mod.rs`, together with proofs
of the specification claims about it.

Strings from the Rust side are embedded as Lean `String` when only
store-key equality matters, and as `List Char` where structural
induction on characters is needed (the container-name grammar).
Rust `u8`/`u64` become `Nat` with explicit `% 2^w` where overflow can
occur; `f64` fields are embedded as `ℚ` (exact for the decimal values
the claims mention); fallible code returns `Option`/`Except`.
-/

/- ## Container naming (src/container/mod.rs, src/config/utils.rs) -/

/-- The two-underscore separator used by the container naming convention. -/
def dunder : List Char := ['_', '_']

/-- Embedding of Rust `str::split("__")`: leftmost, non-overlapping matches
of the two-character separator, as used by `parse_container_name`. -/
def splitDunder : List Char → List (List Char)
  | [] => [[]]
  | [c] => [[c]]
  | c :: d :: rest =>
    if c = '_' ∧ d = '_' then [] :: splitDunder rest
    else
      match splitDunder (d :: rest) with
      | [] => [[c]]
      | p :: ps => (c :: p) :: ps

/-- Value of a decimal digit character. -/
def digitVal (c : Char) : Nat := c.toNat - 48

/-- Digit-accumulation loop of Rust `u8::from_str`: rejects non-digits and
any intermediate value above 255 (overflow). -/
def parseU8Digits : List Char → Nat → Option Nat
  | [], acc => some acc
  | c :: r, acc =>
    if c.isDigit then
      let v := acc * 10 + digitVal c
      if v > 255 then none else parseU8Digits r v
    else none

/-- Embedding of `parts[1].parse::<u8>()`: an optional leading `+`, then one
or more decimal digits, value at most 255. -/
def parseU8 : List Char → Option Nat
  | [] => none
  | '+' :: r => if r.isEmpty then none else parseU8Digits r 0
  | l => parseU8Digits l 0

/-- Lowercase hexadecimal digit, as used in a canonical UUID rendering. -/
def isHexLowerChar (c : Char) : Bool := c.isDigit || ('a' ≤ c && c ≤ 'f')

/-- Canonical hyphenated UUID shape `8-4-4-4-12` over lowercase hex. -/
def isCanonicalUuid (l : List Char) : Bool :=
  ((l.splitOn '-').map List.length == [8, 4, 4, 4, 12]) &&
    l.all (fun c => isHexLowerChar c || c == '-')

/-- Embedding of `Uuid::parse_str` restricted to canonical hyphenated
input (the only shape the claims quantify over); the `Uuid` value is
represented by its canonical rendering, which `parse_str` preserves on
such input. -/
def uuidParse (l : List Char) : Option (List Char) :=
  if isCanonicalUuid l then some l else none

/-- Result record of `parse_container_name` (src/config/utils.rs). -/
structure ContainerNameParts where
  service_name : List Char
  pod_number : Nat
  container_name : List Char
  uuid : List Char
  deriving DecidableEq, Repr

/-- Embedding of `parse_container_name` (src/config/utils.rs:17-44): split
on `__`, require exactly four parts, parse the pod number as `u8` and the
fourth part as a UUID. -/
def parse_container_name (l : List Char) : Option ContainerNameParts :=
  let parts := splitDunder l
  if parts.length = 4 then
    match parseU8 (parts.getD 1 []), uuidParse (parts.getD 3 []) with
    | some n, some u =>
      some ⟨parts.getD 0 [], n, parts.getD 2 [], u⟩
    | _, _ => none
  else none

/-- Error type of `Container::generate_runtime_name`. -/
inductive ContainerError where
  | ServiceNameTooLong
  | ContainerNameTooLong
  deriving DecidableEq, Repr

/-- Embedding of `Container::generate_runtime_name`
(src/container/mod.rs:98-116): length-check the service and container
names (limit 60) and format `service__pod__container__uuid`.  The first
argument is the container spec's `name` field. -/
def generate_runtime_name (containerName serviceName : List Char)
    (podNumber : Nat) (uuid : List Char) : Except ContainerError (List Char) :=
  if serviceName.length > 60 then .error .ServiceNameTooLong
  else if containerName.length > 60 then .error .ContainerNameTooLong
  else .ok (serviceName ++ dunder ++ Nat.toDigits 10 podNumber ++ dunder ++
    containerName ++ dunder ++ uuid)

/-- DNS-safe character: lowercase letter, digit or hyphen. -/
def isDnsChar (c : Char) : Bool := c.isLower || c.isDigit || c == '-'

/-- DNS-safe name: every character is DNS-safe (in particular no `_`). -/
def dnsSafe (l : List Char) : Bool := l.all isDnsChar

/- ## Lemmas about the name grammar -/

/- ## Shared data model (src/container/mod.rs) -/

/-- Port metadata attached to a running container
(src/container/mod.rs `ContainerPortMetadata`). -/
structure ContainerPortMetadata where
  port : Nat
  target_port : Option Nat
  node_port : Option Nat
  deriving DecidableEq, Repr

/-- Metadata of one container of a pod (src/container/mod.rs
`ContainerMetadata`). -/
structure ContainerMetadata where
  name : String
  network : String
  ip_address : String
  ports : List ContainerPortMetadata
  status : String
  deriving DecidableEq, Repr

/-- Metadata of one pod (src/container/mod.rs `InstanceMetadata`); the
UUID is embedded as its canonical string, `created_at` as a numeric
timestamp, and the `image_hash` map as an association list. -/
structure InstanceMetadata where
  uuid : String
  created_at : Nat
  network : String
  containers : List ContainerMetadata
  image_hash : List (String × String)
  deriving DecidableEq, Repr

/-- Runtime-reported container information (src/container/mod.rs
`ContainerInfo`). -/
structure ContainerInfo where
  id : String
  name : String
  state : String
  port : Nat
  deriving DecidableEq, Repr

/-- `parse_container_name` applied to a Lean `String`. -/
def parseContainerNameS (s : String) : Option ContainerNameParts :=
  parse_container_name s.data

/- ## get_next_pod_number (src/container/mod.rs:455-467) -/

/-- Pod numbers parsed from a runtime container listing: the
`filter_map(parse).map(pod_number)` pipeline of `get_next_pod_number`. -/
def podNumbersOf (containers : List ContainerInfo) : List Nat :=
  containers.filterMap (fun c => (parseContainerNameS c.name).map (·.pod_number))

/-- Embedding of `get_next_pod_number`: 0 when listing fails or yields no
parseable container, otherwise the maximum parsed pod number plus one.
The sum is a `u8` in the source, so it is taken modulo 256. -/
def get_next_pod_number (listResult : Except String (List ContainerInfo)) : Nat :=
  match listResult with
  | .error _ => 0
  | .ok containers =>
    match (podNumbersOf containers).max? with
    | none => 0
    | some m => (m + 1) % 256

/-- C5 counterexample input: a running container of service `web` whose
parsed pod number is 255 (the largest `u8`). -/
def podNumber255Container : ContainerInfo :=
  ⟨"cid0", "web__255__app__123e4567-e89b-12d3-a456-426614174000", "running", 0⟩

/- ## stop_service (src/config/mod.rs:819-932) -/

/-- Remove every binding of key `k` from an association list (embedding of
map `remove`). -/
def removeKey {α : Type} (k : String) (l : List (String × α)) : List (String × α) :=
  l.filter (fun p => p.1 ≠ k)

/-- Remove every occurrence of `k` from a key set (embedding of removing a
map entry whose value is irrelevant, e.g. a task handle). -/
def removeElem (k : String) (l : List String) : List String :=
  l.filter (fun x => x ≠ k)

/-- Look up the first binding of key `k`. -/
def lookupKey {α : Type} (k : String) (l : List (String × α)) : Option α :=
  (l.find? (fun p => p.1 = k)).map (·.2)

/-- The process-wide stores touched by `stop_service`, as key-indexed
lists: `SCALING_TASKS` and `IMAGE_CHECK_TASKS` (task keys),
`SERVER_BACKENDS` (key to backend-address set), `INSTANCE_STORE`,
`CONTAINER_STATS` (container keys), `SERVICE_STATS` (service to container
keys), `CONTAINER_HEALTH` (container keys). -/
structure Stores where
  scalingTasks : List String
  imageCheckTasks : List String
  serverBackends : List (String × List String)
  instanceStore : List (String × List (String × InstanceMetadata))
  containerStats : List String
  serviceStats : List (String × List String)
  containerHealth : List String
  deriving DecidableEq, Repr

/-- Runtime calls recorded during cleanup. -/
inductive RAction where
  | stopContainer (name : String)
  | removeNetwork (net : String)
  deriving DecidableEq, Repr

/-- Embedding of `remove_container_stats` (src/container/mod.rs:231-241):
drop the container's entry from `CONTAINER_STATS` and from the service's
`SERVICE_STATS` bucket. -/
def remove_container_stats (service container : String) (st : Stores) : Stores :=
  { st with
    containerStats := removeElem container st.containerStats,
    serviceStats := st.serviceStats.map
      (fun p => if p.1 = service then (p.1, removeElem container p.2) else p) }

/-- Per-pod cleanup step of `stop_service` (src/config/mod.rs:873-928):
stats are removed under the name `{service}__{uuid}` (as in the source),
health entries are removed per container, every container is stopped and
the pod network is removed; runtime failures do not change control flow. -/
def stopServicePod (service : String) (acc : Stores × List RAction)
    (pod : String × InstanceMetadata) : Stores × List RAction :=
  let (st, acts) := acc
  let (uuid, metadata) := pod
  let container_name := service ++ "__" ++ uuid
  let st1 := remove_container_stats service container_name st
  let st2 := { st1 with
    containerHealth := metadata.containers.foldl
      (fun h c => removeElem c.name h) st1.containerHealth }
  (st2, acts ++ metadata.containers.map (fun c => RAction.stopContainer c.name)
    ++ [RAction.removeNetwork metadata.network])

/-- Embedding of `stop_service` (src/config/mod.rs:819-932): abort the
scaling task and the `{service}_updater` task, abort the image-check
task, remove the `SERVER_BACKENDS` entry keyed by the bare service name,
take the service's pods out of `INSTANCE_STORE`, then run the per-pod
cleanup. -/
def stop_service (service : String) (st : Stores) : Stores × List RAction :=
  let st1 := { st with
    scalingTasks := removeElem (service ++ "_updater") (removeElem service st.scalingTasks) }
  let st2 := { st1 with imageCheckTasks := removeElem service st1.imageCheckTasks }
  let st3 := { st2 with serverBackends := removeKey service st2.serverBackends }
  let pods := (lookupKey service st3.instanceStore).getD []
  let st4 := { st3 with instanceStore := removeKey service st3.instanceStore }
  pods.foldl (stopServicePod service) (st4, [])

/-- Concrete pod metadata for the C1 failing input: service `web`, one
pod, one container with `node_port` 30080. -/
def examplePodMeta : InstanceMetadata :=
  { uuid := "123e4567-e89b-12d3-a456-426614174000"
    created_at := 0
    network := "web__123e4567-e89b-12d3-a456-426614174000"
    containers := [{
      name := "web__0__app__123e4567-e89b-12d3-a456-426614174000"
      network := "web__123e4567-e89b-12d3-a456-426614174000"
      ip_address := "10.0.0.2"
      ports := [{ port := 80, target_port := none, node_port := some 30080 }]
      status := "running" }]
    image_hash := [("app", "sha256:abc")] }

/-- Stores for the C1 failing input, as they stand while `web` is running:
the backend set lives under key `web_30080` and the stats under the
container's runtime name. -/
def exampleStores : Stores :=
  { scalingTasks := ["web", "web_updater"]
    imageCheckTasks := ["web"]
    serverBackends := [("web_30080", ["10.0.0.2:80"])]
    instanceStore := [("web", [("123e4567-e89b-12d3-a456-426614174000", examplePodMeta)])]
    containerStats := ["web__0__app__123e4567-e89b-12d3-a456-426614174000"]
    serviceStats := [("web", ["web__0__app__123e4567-e89b-12d3-a456-426614174000"])]
    containerHealth := ["web__0__app__123e4567-e89b-12d3-a456-426614174000"] }

/- ## Service configuration (src/config/mod.rs, fields used by the claims) -/

/-- Container spec of a manifest (src/container/mod.rs `Container`);
`ports` is optional exactly as in the source, and the per-port data
already has the shape handed to `ContainerPortMetadata`. -/
structure ContainerSpec where
  name : String
  image : String
  ports : Option (List ContainerPortMetadata)
  deriving DecidableEq, Repr

/-- `ServiceSpec` of src/config/mod.rs. -/
structure ServiceSpec where
  containers : List ContainerSpec
  deriving DecidableEq, Repr

/-- `InstanceCount` of src/config/mod.rs. -/
structure InstanceCount where
  min : Nat
  max : Nat
  deriving DecidableEq, Repr

/-- `ServiceConfig` of src/config/mod.rs, restricted to the fields the
verified operations read. -/
structure ServiceConfig where
  name : String
  spec : ServiceSpec
  instance_count : InstanceCount
  adopt_orphans : Bool
  deriving DecidableEq, Repr

/- ## handle_orphans (src/config/mod.rs:599-816) -/

/-- Insert a container into its pod group (embedding of the
`pod_containers.entry(uuid).or_default().push(container)` update). -/
def addToGroup (acc : List (String × List ContainerInfo)) (u : String)
    (c : ContainerInfo) : List (String × List ContainerInfo) :=
  if acc.any (fun g => g.1 = u) then
    acc.map (fun g => if g.1 = u then (g.1, g.2 ++ [c]) else g)
  else acc ++ [(u, [c])]

/-- Group the discovered containers by the UUID parsed from their name
(src/config/mod.rs:617-626); unparseable names are skipped. -/
def groupByUuid (orphans : List ContainerInfo) : List (String × List ContainerInfo) :=
  orphans.foldl (fun acc c =>
    match parseContainerNameS c.name with
    | some parts => addToGroup acc (String.mk parts.uuid) c
    | none => acc) []

/-- Adoption metadata for one container of a complete pod
(src/config/mod.rs:679-717): requires a parseable name, a matching
container spec, declared ports and a successful inspection; otherwise
the container is skipped. -/
def adoptContainerMeta (cfg : ServiceConfig) (inspect : String → Option String)
    (network_name : String) (c : ContainerInfo) : Option ContainerMetadata :=
  (parseContainerNameS c.name).bind (fun parts =>
    (cfg.spec.containers.find?
        (fun s => s.name = String.mk parts.container_name)).bind (fun cspec =>
      cspec.ports.bind (fun port_configs =>
        (inspect c.name).map (fun ip =>
          { name := c.name, network := network_name, ip_address := ip,
            ports := port_configs, status := "adopted" }))))

/-- `pod_metadata` accumulated for a complete pod group. -/
def podMetadataOf (cfg : ServiceConfig) (inspect : String → Option String)
    (network_name : String) (cs : List ContainerInfo) : List ContainerMetadata :=
  cs.filterMap (adoptContainerMeta cfg inspect network_name)

/-- One `image_hashes` entry (src/config/mod.rs:723-739): parseable name,
matching spec and a successful digest fetch for the spec's image. -/
def adoptImageHash (cfg : ServiceConfig) (digest : String → Option String)
    (c : ContainerInfo) : Option (String × String) :=
  (parseContainerNameS c.name).bind (fun parts =>
    (cfg.spec.containers.find?
        (fun s => s.name = String.mk parts.container_name)).bind (fun cspec =>
      (digest cspec.image).map (fun h => (cspec.name, h))))

/-- `image_hashes` accumulated for a complete pod group. -/
def imageHashesOf (cfg : ServiceConfig) (digest : String → Option String)
    (cs : List ContainerInfo) : List (String × String) :=
  cs.filterMap (adoptImageHash cfg digest)

/-- Pod groups whose size differs from the declared container count
(`incomplete_pod_uuids` of src/config/mod.rs:629-633, with their
containers). -/
def incompleteGroups (cfg : ServiceConfig) (orphans : List ContainerInfo) :
    List (String × List ContainerInfo) :=
  (groupByUuid orphans).filter (fun g => g.2.length ≠ cfg.spec.containers.length)

/-- Pod groups of exactly the declared container count (what remains in
`pod_containers` after the incomplete ones are removed,
src/config/mod.rs:662-664). -/
def completeGroups (cfg : ServiceConfig) (orphans : List ContainerInfo) :
    List (String × List ContainerInfo) :=
  (groupByUuid orphans).filter (fun g => g.2.length = cfg.spec.containers.length)

/-- Runtime calls tearing one pod group down: stop every container, then
remove the pod network `{service}__{uuid}`. -/
def stopGroupActs (cfg : ServiceConfig) (g : String × List ContainerInfo) :
    List RAction :=
  g.2.map (fun c => RAction.stopContainer c.name)
    ++ [RAction.removeNetwork (cfg.name ++ "__" ++ g.1)]

/-- Adoption of one complete pod group (src/config/mod.rs:675-751): build
the pod metadata; if no container contributed metadata the group is not
inserted, otherwise insert an `InstanceMetadata` under its UUID. -/
def adoptGroup (cfg : ServiceConfig) (inspect : String → Option String)
    (digest : String → Option String) (g : String × List ContainerInfo) :
    Option (String × InstanceMetadata) :=
  let network_name := cfg.name ++ "__" ++ g.1
  let pm := podMetadataOf cfg inspect network_name g.2
  let meta : InstanceMetadata :=
    { uuid := g.1, created_at := 0, network := network_name,
      containers := pm, image_hash := imageHashesOf cfg digest g.2 }
  if pm.isEmpty then none else some (g.1, meta)

/-- Pods inserted into `INSTANCE_STORE` by the adoption branch. -/
def adoptInstances (cfg : ServiceConfig) (orphans : List ContainerInfo)
    (inspect : String → Option String) (digest : String → Option String) :
    List (String × InstanceMetadata) :=
  (completeGroups cfg orphans).filterMap (adoptGroup cfg inspect digest)

/-- Stop/remove calls issued for the incomplete groups
(src/config/mod.rs:635-660). -/
def incompleteActs (cfg : ServiceConfig) (orphans : List ContainerInfo) :
    List RAction :=
  (incompleteGroups cfg orphans).foldl (fun acts g => acts ++ stopGroupActs cfg g) []

/-- Stop/remove calls of the non-adoption branch
(src/config/mod.rs:760-813): every group is torn down. -/
def allGroupActs (cfg : ServiceConfig) (orphans : List ContainerInfo) :
    List RAction :=
  (groupByUuid orphans).foldl (fun acts g => acts ++ stopGroupActs cfg g) []

/-- Embedding of `handle_orphans` (src/config/mod.rs:599-816).  The
runtime is abstracted by the discovered container list and the `inspect`
and `digest` oracles; the first result component is the set of pods
inserted into `INSTANCE_STORE` for this service, the second the runtime
stop/remove calls issued. -/
def handle_orphans (cfg : ServiceConfig) (orphans : List ContainerInfo)
    (inspect : String → Option String) (digest : String → Option String) :
    List (String × InstanceMetadata) × List RAction :=
  if orphans.isEmpty then ([], [])
  else if cfg.adopt_orphans then
    (adoptInstances cfg orphans inspect digest, incompleteActs cfg orphans)
  else ([], allGroupActs cfg orphans)

/-- C4 counterexample configuration: `adopt_orphans = true`, one declared
container whose spec has no `ports`. -/
def orphanNoPortsConfig : ServiceConfig :=
  { name := "svc", spec := ⟨[⟨"c", "img", none⟩]⟩,
    instance_count := ⟨1, 1⟩, adopt_orphans := true }

/-- C4 counterexample orphan: a parseable container of `svc`, forming a
pod group of exactly the declared size 1. -/
def orphanNoPortsContainer : ContainerInfo :=
  ⟨"cid1", "svc__0__c__123e4567-e89b-12d3-a456-426614174000", "running", 0⟩

/-- C4 witness configuration: one declared container with ports,
`adopt_orphans = true`. -/
def adoptWitnessConfig : ServiceConfig :=
  { name := "svc", spec := ⟨[⟨"c", "img", some [⟨80, none, some 30080⟩]⟩]⟩,
    instance_count := ⟨1, 2⟩, adopt_orphans := true }

/-- C4 witness orphan: a complete one-container pod of `svc`. -/
def adoptWitnessOrphan : ContainerInfo :=
  ⟨"cid2", "svc__0__c__123e4567-e89b-12d3-a456-426614174000", "running", 0⟩

/- ## Config watcher (src/config/mod.rs:255-475) -/

/-- Debounced event kinds propagated by the watcher. -/
inductive EvKind where
  | create
  | modify
  | remove
  | other
  deriving DecidableEq, Repr

/-- A debounced filesystem event: a kind and the affected paths. -/
structure FsEvent where
  kind : EvKind
  paths : List String
  deriving DecidableEq, Repr

/-- Filesystem and validation environment of `process_event`:
`pathExists`/`isFile` abstract `Path::exists`/`is_file`, `parseConfig`
abstracts `read_yaml_config` (parse plus validation) for a path, and
`relPath` abstracts `get_relative_config_path`. -/
structure WatcherOracle where
  pathExists : String → Bool
  isFile : String → Bool
  parseConfig : String → Option ServiceConfig
  relPath : String → String

/-- The two stores `process_event` mutates: `CONFIG_STORE` (key to
`(path, config)`) and `SCALING_TASKS` (service names with a task). -/
structure WatchState where
  configStore : List (String × (String × ServiceConfig))
  scalingTasks : List String
  deriving DecidableEq, Repr

/-- Calls issued by `process_event`, in program order. -/
inductive WAction where
  | abortTask (s : String)
  | manageService (s : String)
  | runProxy (s : String)
  | spawnTask (s : String)
  | stopServiceCall (s : String)
  | cleanUpCall (s : String)
  deriving DecidableEq, Repr

/-- Last `/`-separated component of a path string. -/
def lastComponent (p : String) : String := (p.splitOn "/").getLastD ""

/-- Embedding of Rust `Path::extension`: text after the last `.` of the
final component; `none` when there is no `.` or the name is a bare
dot-file. -/
def pathExtension (p : String) : Option String :=
  match (lastComponent p).splitOn "." with
  | [] => none
  | [_] => none
  | first :: rest =>
    if first = "" ∧ rest.length = 1 then none
    else some (rest.getLastD "")

/-- The `.yml`/`.yaml` extension test used by the sweep. -/
def hasYamlExt (p : String) : Bool :=
  match pathExtension p with
  | some e => e == "yml" || e == "yaml"
  | none => false

/-- Insert (upsert) a binding into an association-list store. -/
def insertAL {α : Type} (k : String) (v : α) (l : List (String × α)) :
    List (String × α) :=
  (k, v) :: removeKey k l

/-- `Create`/`Modify` handling (src/config/mod.rs:300-381): for an
existing regular file that is not a known non-YAML extension, parse it;
on success insert under the relative key, abort any existing scaling
task for the config's service, run manage and the proxy, and spawn a
fresh scaling task. -/
def handleCreateModify (ro : WatcherOracle) (st : WatchState) (p : String) :
    WatchState × List WAction :=
  if ro.pathExists p && ro.isFile p then
    let extSkip : Bool :=
      match pathExtension p with
      | some e => !(e == "yml" || e == "yaml")
      | none => false
    if extSkip then (st, [])
    else
      match ro.parseConfig p with
      | none => (st, [])
      | some cfg =>
        let aborts : List WAction :=
          if cfg.name ∈ st.scalingTasks then [WAction.abortTask cfg.name] else []
        ({ configStore := insertAL (ro.relPath p) (p, cfg) st.configStore,
           scalingTasks := removeElem cfg.name st.scalingTasks ++ [cfg.name] },
          aborts ++ [WAction.manageService cfg.name, WAction.runProxy cfg.name,
            WAction.spawnTask cfg.name])
  else (st, [])

/-- `Remove` handling (src/config/mod.rs:383-421): look up the store by
the event path's display string, and when found remove it, abort the
scaling task and call `stop_service` and `clean_up`. -/
def handleRemove (st : WatchState) (p : String) : WatchState × List WAction :=
  match lookupKey p st.configStore with
  | none => (st, [])
  | some (_, cfg) =>
    let aborts : List WAction :=
      if cfg.name ∈ st.scalingTasks then [WAction.abortTask cfg.name] else []
    ({ configStore := removeKey p st.configStore,
       scalingTasks := removeElem cfg.name st.scalingTasks },
      aborts ++ [WAction.stopServiceCall cfg.name, WAction.cleanUpCall cfg.name])

/-- One path of the event, dispatched on the event kind. -/
def eventStep (ro : WatcherOracle) (kind : EvKind)
    (acc : WatchState × List WAction) (p : String) : WatchState × List WAction :=
  match kind with
  | .create =>
    let r := handleCreateModify ro acc.1 p
    (r.1, acc.2 ++ r.2)
  | .modify =>
    let r := handleCreateModify ro acc.1 p
    (r.1, acc.2 ++ r.2)
  | .remove =>
    let r := handleRemove acc.1 p
    (r.1, acc.2 ++ r.2)
  | .other => acc

/-- The per-event half of `process_event`: fold the handler over the
event's paths. -/
def eventPhase (ro : WatcherOracle) (ev : FsEvent) (st : WatchState) :
    WatchState × List WAction :=
  ev.paths.foldl (eventStep ro ev.kind) (st, [])

/-- The sweep's candidate list (src/config/mod.rs:427-444): for every
store entry whose stored path no longer exists or no longer has a YAML
extension, the stored path and the service name. -/
def staleEntries (ro : WatcherOracle) (st : WatchState) : List (String × String) :=
  st.configStore.filterMap (fun e =>
    if ro.pathExists e.2.1 && hasYamlExt e.2.1 then none
    else some (e.2.1, e.2.2.name))

/-- One sweep eviction (src/config/mod.rs:445-474): remove the store
entry keyed by the stored path's display string (not by the entry's own
key), abort the scaling task, and call `stop_service` and `clean_up`. -/
def sweepStep (acc : WatchState × List WAction) (pc : String × String) :
    WatchState × List WAction :=
  let aborts : List WAction :=
    if pc.2 ∈ acc.1.scalingTasks then [WAction.abortTask pc.2] else []
  ({ configStore := removeKey pc.1 acc.1.configStore,
     scalingTasks := removeElem pc.2 acc.1.scalingTasks },
    acc.2 ++ aborts ++ [WAction.stopServiceCall pc.2, WAction.cleanUpCall pc.2])

/-- The sweep half of `process_event`. -/
def sweepPhase (ro : WatcherOracle) (stA : WatchState × List WAction) :
    WatchState × List WAction :=
  (staleEntries ro stA.1).foldl sweepStep stA

/-- Embedding of `process_event` (src/config/mod.rs:293-475): the
event-specific handling followed by the sweep over the resulting store. -/
def process_event (ro : WatcherOracle) (ev : FsEvent) (st : WatchState) :
    WatchState × List WAction :=
  sweepPhase ro (eventPhase ro ev st)

/-- C3 config for the counterexample service `a`. -/
def watchCfgA : ServiceConfig :=
  { name := "a", spec := ⟨[]⟩, instance_count := ⟨1, 1⟩, adopt_orphans := false }

/-- C3 counterexample environment: no path exists on disk any more. -/
def watchOracle0 : WatcherOracle :=
  { pathExists := fun _ => false, isFile := fun _ => false,
    parseConfig := fun _ => none, relPath := fun p => p }

/-- C3 counterexample state: the entry for `a` was inserted under its
relative key `configs/a.yml`, while the stored path is absolute. -/
def watchState0 : WatchState :=
  { configStore := [("configs/a.yml", ("/abs/configs/a.yml", watchCfgA))],
    scalingTasks := ["a"] }

/-- C3 witness config for service `b`. -/
def watchCfgB : ServiceConfig :=
  { name := "b", spec := ⟨[]⟩, instance_count := ⟨0, 1⟩, adopt_orphans := false }

/-- C3 witness environment and state: one entry whose key equals its
stored path, which no longer exists. -/
def watchStateB : WatchState :=
  { configStore := [("b.yml", ("b.yml", watchCfgB))], scalingTasks := ["b"] }

/- ## handle_config_update (src/config/mod.rs:977-1064) -/

/-- Effects of `handle_config_update`, in program order: the two
`CONFIG_UPDATES` channel sends, the in-place `CONFIG_STORE` mutation, the
container reconciliation (`manage`), the proxy refresh, and the spawn of
a new scaling task for a new service. -/
inductive UAction where
  | sendConfigUpdate
  | sendResume
  | updateStore
  | manageSvc
  | runProxySvc
  | spawnScaleTask
  deriving DecidableEq, Repr

/-- Embedding of `handle_config_update` (src/config/mod.rs:977-1064) as
its trace of effects.  `validationOk` abstracts the five validators at
the top of the function (name format, container-name uniqueness, service
ports, port conflicts, service-name uniqueness); `hasTask` is whether
`SCALING_TASKS` holds a task for the service (`!is_new_service`).  The
channel is assumed healthy, as both sends only fail when the process-wide
receiver is gone. -/
def handle_config_update (validationOk : Bool) (hasTask : Bool) :
    Except String (List UAction) :=
  if !validationOk then .error "validation failed"
  else
    .ok ((if hasTask then [UAction.sendConfigUpdate] else [UAction.spawnScaleTask])
      ++ [UAction.updateStore, UAction.manageSvc, UAction.runProxySvc]
      ++ (if hasTask then [UAction.sendResume] else []))

/- ## Stats collector (src/container/mod.rs:148-224, 319-344, 379-429) -/

/-- `StatsEntry` (src/container/mod.rs:258-263): the last-sampled
cumulative CPU counters; the timestamp is embedded as a rational number
of seconds. -/
structure StatsEntryQ where
  timestamp : ℚ
  cpu_total_usage : Nat
  system_cpu_usage : Nat
  deriving DecidableEq, Repr

/-- `ContainerStats` (src/container/mod.rs:303-317) with the `f64` fields
embedded as `ℚ` and the port map dropped (never read by the claims). -/
structure ContainerStatsQ where
  id : String
  ip_address : String
  cpu_percentage : ℚ
  cpu_percentage_relative : ℚ
  memory_usage : Nat
  memory_limit : Nat
  network_rx_bytes : Nat
  network_tx_bytes : Nat
  network_rx_rate : ℚ
  network_tx_rate : ℚ
  timestamp : ℚ
  deriving DecidableEq, Repr

/-- Embedding of `calculate_cpu_percentages`
(src/container/mod.rs:379-429): with no previous entry, both percentages
are zero; otherwise compute the clamped absolute percentage and the
limit-relative percentage from the deltas. -/
def calculate_cpu_percentages (previous : Option StatsEntryQ)
    (cpu_total system_cpu : Nat) (online_cpus : ℚ) (nano_cpus : Option Nat) :
    ℚ × ℚ :=
  match previous with
  | none => (0, 0)
  | some prev =>
    let cpu_delta : ℚ := (cpu_total : ℚ) - (prev.cpu_total_usage : ℚ)
    let system_delta : ℚ := (system_cpu : ℚ) - (prev.system_cpu_usage : ℚ)
    if system_delta > 0 ∧ cpu_delta ≥ 0 then
      let absolute_cpu :=
        min (max (cpu_delta / system_delta * online_cpus * 100) 0)
          (100 * online_cpus)
      let relative_cpu :=
        match nano_cpus with
        | some cpu_limit =>
          let allocated_cpu : ℚ := (cpu_limit : ℚ) / 1000000000
          if allocated_cpu > 0 then
            min (max (absolute_cpu / online_cpus / allocated_cpu * 100) 0) 100
          else 0
        | none => absolute_cpu / online_cpus
      (absolute_cpu / online_cpus, relative_cpu)
    else (0, 0)

/-- Embedding of `ContainerStats::update_network_stats`
(src/container/mod.rs:320-344): `networks` is the summed `(rx, tx)`
counters when the sample reports networks; rates are recomputed only when
a previous `ContainerStats` exists and the time delta is positive, with a
negative `duration_since` replaced by one second. -/
def update_network_stats (self : ContainerStatsQ)
    (networks : Option (Nat × Nat)) (previous : Option ContainerStatsQ) :
    ContainerStatsQ :=
  match networks with
  | none => self
  | some (rx, tx) =>
    let rates : ℚ × ℚ :=
      match previous with
      | some prev =>
        let time_diff : ℚ :=
          if self.timestamp < prev.timestamp then 1
          else self.timestamp - prev.timestamp
        if time_diff > 0 then
          (((rx : ℚ) - (prev.network_rx_bytes : ℚ)) / time_diff,
            ((tx : ℚ) - (prev.network_tx_bytes : ℚ)) / time_diff)
        else (self.network_rx_rate, self.network_tx_rate)
      | none => (self.network_rx_rate, self.network_tx_rate)
    { self with
      network_rx_rate := rates.1
      network_tx_rate := rates.2
      network_rx_bytes := rx
      network_tx_bytes := tx }

/-- Embedding of `update_container_stats` (src/container/mod.rs:148-224)
for one sample: `previous` is `CONTAINER_STATS[container]` paired with the
previous `ContainerStats` from `SERVICE_STATS` — `none` exactly when no
`StatsEntry` is recorded for the container.  Builds the new
`ContainerStats` with the computed CPU percentages, zero-initialised
rates, then applies `update_network_stats`. -/
def update_container_stats (now : ℚ) (id : String)
    (cpu_total system_cpu : Nat) (online_cpus : ℚ)
    (mem_usage mem_limit : Nat) (networks : Option (Nat × Nat))
    (nano_cpus : Option Nat)
    (previous : Option (StatsEntryQ × Option ContainerStatsQ)) :
    ContainerStatsQ :=
  let cpus := calculate_cpu_percentages (previous.map (·.1)) cpu_total
    system_cpu online_cpus nano_cpus
  let base : ContainerStatsQ :=
    { id := id, ip_address := "",
      cpu_percentage := cpus.1, cpu_percentage_relative := cpus.2,
      memory_usage := mem_usage, memory_limit := mem_limit,
      network_rx_bytes := 0, network_tx_bytes := 0,
      network_rx_rate := 0, network_tx_rate := 0, timestamp := now }
  update_network_stats base networks (previous.bind (·.2))

/- ## aggregate_pod_stats (src/config/mod.rs:200-250) -/

/-- `PodMetricsStrategy` (src/config/mod.rs:169-181). -/
inductive PodMetricsStrategy where
  | Maximum
  | Average
  deriving DecidableEq, Repr

/-- `PodStats` (src/config/mod.rs:192-198), CPU fields as `ℚ`. -/
structure PodStats where
  cpu_percentage : ℚ
  cpu_percentage_relative : ℚ
  memory_usage : Nat
  memory_limit : Nat
  deriving DecidableEq, Repr

/-- Embedding of `aggregate_pod_stats` (src/config/mod.rs:200-250); the
input keeps only the `ContainerStats` component of each triple, the only
one the source reads.  `Maximum` folds field-wise maxima from zero.
`Average` sums and divides by the container count: the `u64` divisions
panic on an empty slice (count 0), embedded as `none`; memory uses `u64`
integer division as in the source. -/
def aggregate_pod_stats (container_stats : List ContainerStatsQ)
    (strategy : PodMetricsStrategy) : Option PodStats :=
  match strategy with
  | .Maximum =>
    some (container_stats.foldl
      (fun acc s =>
        { cpu_percentage := max acc.cpu_percentage s.cpu_percentage
          cpu_percentage_relative :=
            max acc.cpu_percentage_relative s.cpu_percentage_relative
          memory_usage := max acc.memory_usage s.memory_usage
          memory_limit := max acc.memory_limit s.memory_limit })
      ⟨0, 0, 0, 0⟩)
  | .Average =>
    let count := container_stats.length
    let sums := container_stats.foldl
      (fun acc s =>
        (acc.1 + s.cpu_percentage, acc.2.1 + s.cpu_percentage_relative,
          acc.2.2.1 + s.memory_usage, acc.2.2.2 + s.memory_limit))
      ((0 : ℚ), (0 : ℚ), (0 : Nat), (0 : Nat))
    if count = 0 then none
    else some
      { cpu_percentage := sums.1 / (count : ℚ)
        cpu_percentage_relative := sums.2.1 / (count : ℚ)
        memory_usage := sums.2.2.1 / count
        memory_limit := sums.2.2.2 / count }

/- ## parse_cpu_limit (src/config/mod.rs:960-975) -/

/-- A `serde_json::Value` as seen by `parse_cpu_limit`: a number (its
`as_f64` value, embedded as `ℚ`), a string, or any other variant. -/
inductive JValue where
  | num (q : ℚ)
  | str (s : String)
  | other
  deriving DecidableEq, Repr

/-- `u64::MAX`. -/
def u64Max : Nat := 2 ^ 64 - 1

/-- Embedding of the Rust `as u64` cast from `f64`: saturating at 0 and
`u64::MAX`, truncating toward zero. -/
def f64ToU64 (q : ℚ) : Nat :=
  if q ≤ 0 then 0 else min (Int.toNat ⌊q⌋) u64Max

/-- All-decimal-digit check for a string fragment. -/
def allDigits (l : List Char) : Bool := l.all (·.isDigit)

/-- Numeric value of a digit string. -/
def digitsVal (l : List Char) : Nat := l.foldl (fun a c => a * 10 + digitVal c) 0

/-- Split a character list at every `.`. -/
def splitOnDot : List Char → List (List Char)
  | [] => [[]]
  | c :: r =>
    if c = '.' then [] :: splitOnDot r
    else
      match splitOnDot r with
      | [] => [[c]]
      | p :: ps => (c :: p) :: ps

/-- Unsigned part of Rust `f64::from_str`, for inputs of the form
`digits`, `digits.digits`, `.digits` or `digits.`. -/
def parseUnsignedDecimal (l : List Char) : Option ℚ :=
  match splitOnDot l with
  | [i] =>
    if i ≠ [] ∧ allDigits i then some ((digitsVal i : ℚ)) else none
  | [i, f] =>
    if (i ≠ [] ∨ f ≠ []) ∧ allDigits i ∧ allDigits f then
      some ((digitsVal i : ℚ) + (digitsVal f : ℚ) / (10 ^ f.length))
    else none
  | _ => none

/-- Embedding of `s.parse::<f64>()` on plain decimal literals (optional
sign, integer and fractional digits) — exact on such inputs, which are
the ones the claims mention. -/
def parseDecimal (s : String) : Option ℚ :=
  match s.data with
  | [] => none
  | '-' :: rest => (parseUnsignedDecimal rest).map (fun q => -q)
  | '+' :: rest => parseUnsignedDecimal rest
  | l => parseUnsignedDecimal l

/-- Embedding of `parse_cpu_limit` (src/config/mod.rs:960-975): a JSON
number is range-checked (`value ≤ 0` or above `u64::MAX as f64 / 1e9`
is rejected) and scaled by 10⁹; a JSON string is parsed as `f64` and
scaled by 10⁹ with no range check; other variants are rejected.
`u64::MAX as f64` rounds to 2⁶⁴, embedded exactly. -/
def parse_cpu_limit (cpu_limit : JValue) : Except String Nat :=
  match cpu_limit with
  | .num value =>
    if value ≤ 0 ∨ value > (2 ^ 64 : ℚ) / 1000000000 then
      .error "CPU limit out of valid range"
    else .ok (f64ToU64 (value * 1000000000))
  | .str s =>
    match parseDecimal s with
    | none => .error "invalid float literal"
    | some value => .ok (f64ToU64 (value * 1000000000))
  | .other => .error "Unsupported CPU limit type"

deriving instance DecidableEq for Except

/- ## Theorems -/

theorem splitDunder_no_sep : ∀ (l : List Char), '_' ∉ l → splitDunder l = [l]
  | [], _ => rfl
  | [_], _ => rfl
  | c :: d :: r, h => by
    have hc : c ≠ '_' := fun hc => h (by simp [hc])
    have hr : '_' ∉ d :: r := fun hm => h (List.mem_cons_of_mem c hm)
    rw [splitDunder, if_neg (fun hcd => hc hcd.1), splitDunder_no_sep (d :: r) hr]

theorem splitDunder_append : ∀ (a t : List Char), '_' ∉ a →
    splitDunder (a ++ dunder ++ t) = a :: splitDunder t
  | [], t, _ => by
    show splitDunder ('_' :: '_' :: t) = [] :: splitDunder t
    rw [splitDunder, if_pos ⟨rfl, rfl⟩]
  | [c], t, h => by
    have hc : c ≠ '_' := fun hc => h (by simp [hc])
    show splitDunder (c :: '_' :: '_' :: t) = [c] :: splitDunder t
    rw [splitDunder, if_neg (fun hcd => hc hcd.1)]
    rw [show ('_' :: '_' :: t) = [] ++ dunder ++ t from rfl,
      splitDunder_append [] t (by simp)]
  | c :: c' :: a', t, h => by
    have hc : c ≠ '_' := fun hc => h (by simp [hc])
    have ha : '_' ∉ c' :: a' := fun hm => h (List.mem_cons_of_mem c hm)
    show splitDunder (c :: (c' :: a' ++ dunder ++ t)) = (c :: c' :: a') :: splitDunder t
    rw [show (c :: (c' :: a' ++ dunder ++ t)) = c :: c' :: (a' ++ dunder ++ t) from rfl,
      splitDunder, if_neg (fun hcd => hc hcd.1),
      show c' :: (a' ++ dunder ++ t) = (c' :: a') ++ dunder ++ t from rfl,
      splitDunder_append (c' :: a') t ha]

set_option maxRecDepth 4000 in
theorem parseU8_toDigits : ∀ i : Fin 256, parseU8 (Nat.toDigits 10 i.1) = some i.1 := by
  decide

set_option maxRecDepth 4000 in
theorem toDigits_no_underscore : ∀ i : Fin 256, '_' ∉ Nat.toDigits 10 i.1 := by
  decide

theorem uuid_no_underscore (u : List Char) (h : isCanonicalUuid u = true) :
    '_' ∉ u := by
  intro hm
  have hall := (Bool.and_eq_true _ _ |>.mp h).2
  have := List.all_eq_true.mp hall '_' hm
  simp [isHexLowerChar] at this

theorem dnsSafe_no_underscore (l : List Char) (h : dnsSafe l = true) : '_' ∉ l := by
  intro hm
  have := List.all_eq_true.mp h '_' hm
  simp [isDnsChar, Char.isLower, Char.isDigit] at this

theorem splitDunder_append_cons (a t : List Char) (h : '_' ∉ a) :
    splitDunder (a ++ '_' :: '_' :: t) = a :: splitDunder t := by
  have hx := splitDunder_append a t h
  rwa [List.append_assoc] at hx

theorem uuidParse_canonical (u : List Char) (h : isCanonicalUuid u = true) :
    uuidParse u = some u := by
  rw [uuidParse, if_pos h]

/-- C2: for DNS-safe service and container names of length at most 60, any
pod number that fits in a `u8` and a canonical UUID,
`generate_runtime_name` succeeds and `parse_container_name` recovers
exactly the four components. -/
theorem generate_parse_container_name_roundtrip
    (c s u : List Char) (n : Nat)
    (hs : dnsSafe s = true) (hc : dnsSafe c = true)
    (hsl : s.length ≤ 60) (hcl : c.length ≤ 60)
    (hn : n ≤ 255) (hu : isCanonicalUuid u = true) :
    ∃ name, generate_runtime_name c s n u = .ok name ∧
      parse_container_name name = some ⟨s, n, c, u⟩ := by
  have hns : ¬ s.length > 60 := by omega
  have hnc : ¬ c.length > 60 := by omega
  have hT : '_' ∉ Nat.toDigits 10 n := toDigits_no_underscore ⟨n, by omega⟩
  have hsplit : splitDunder
      (s ++ dunder ++ Nat.toDigits 10 n ++ dunder ++ c ++ dunder ++ u)
      = [s, Nat.toDigits 10 n, c, u] := by
    have e : s ++ dunder ++ Nat.toDigits 10 n ++ dunder ++ c ++ dunder ++ u
        = s ++ '_' :: '_' ::
            (Nat.toDigits 10 n ++ '_' :: '_' :: (c ++ '_' :: '_' :: u)) := by
      simp [dunder, List.append_assoc]
    rw [e, splitDunder_append_cons s _ (dnsSafe_no_underscore s hs),
      splitDunder_append_cons _ _ hT,
      splitDunder_append_cons c _ (dnsSafe_no_underscore c hc),
      splitDunder_no_sep u (uuid_no_underscore u hu)]
  refine ⟨s ++ dunder ++ Nat.toDigits 10 n ++ dunder ++ c ++ dunder ++ u, ?_, ?_⟩
  · rw [generate_runtime_name, if_neg hns, if_neg hnc]
  · have hp : parseU8 (Nat.toDigits 10 n) = some n := parseU8_toDigits ⟨n, by omega⟩
    simp only [List.append_assoc] at hsplit
    simp [parse_container_name, hsplit, List.getD, hp, uuidParse_canonical u hu]

/-- Closed witness for `generate_parse_container_name_roundtrip` at the
concrete input service `web`, container `app`, pod 3, a fixed UUID. -/
theorem generate_parse_container_name_roundtrip_witness :
    ∃ name, generate_runtime_name "app".data "web".data 3
        "123e4567-e89b-12d3-a456-426614174000".data = .ok name ∧
      parse_container_name name = some ⟨"web".data, 3, "app".data,
        "123e4567-e89b-12d3-a456-426614174000".data⟩ :=
  generate_parse_container_name_roundtrip _ _ _ _ (by decide) (by decide)
    (by decide) (by decide) (by decide) (by decide)

theorem foldl_max_spec : ∀ (as : List Nat) (a : Nat),
    (as.foldl max a ∈ a :: as) ∧ a ≤ as.foldl max a ∧
      ∀ p ∈ as, p ≤ as.foldl max a
  | [], a => by simp
  | b :: as, a => by
    have ih := foldl_max_spec as (max a b)
    simp only [List.foldl_cons]
    refine ⟨?_, ?_, ?_⟩
    · rcases List.mem_cons.mp ih.1 with h | h
      · rcases max_choice a b with hm | hm <;> rw [h, hm] <;> simp
      · simp [List.mem_cons_of_mem, h]
    · exact le_trans (le_max_left a b) ih.2.1
    · intro p hp
      rcases List.mem_cons.mp hp with rfl | hp
      · exact le_trans (le_max_right a _) ih.2.1
      · exact ih.2.2 p hp

/-- C5 counterexample: with a container at pod number 255 in the runtime
listing, `get_next_pod_number` returns 0 (the `u8` sum `max + 1` wraps),
not the claimed maximum-plus-one, and 0 is exactly the value the claim
reserves for an empty listing. -/
theorem get_next_pod_number_wraps_at_255 :
    podNumbersOf [podNumber255Container] = [255] ∧
      get_next_pod_number (.ok [podNumber255Container]) = 0 ∧
      (255 : Nat) + 1 ≠ 0 := by decide

/-- C5 amended: when the runtime listing succeeds, `get_next_pod_number`
returns 0 if no container name parses, and otherwise returns the maximum
parsed pod number plus one — strictly above every in-use pod number, hence
fresh — provided that maximum is below 255 (at 255 the `u8` sum wraps). -/
theorem get_next_pod_number_fresh (l : List ContainerInfo)
    (hbound : ∀ p ∈ podNumbersOf l, p < 255) :
    (podNumbersOf l = [] → get_next_pod_number (.ok l) = 0) ∧
    (∀ p ∈ podNumbersOf l, p < get_next_pod_number (.ok l)) ∧
    (podNumbersOf l ≠ [] → ∃ m ∈ podNumbersOf l,
      (∀ p ∈ podNumbersOf l, p ≤ m) ∧ get_next_pod_number (.ok l) = m + 1) := by
  cases hpn : podNumbersOf l with
  | nil => simp [get_next_pod_number, hpn]
  | cons a as =>
    have hspec := foldl_max_spec as a
    set M := as.foldl max a with hM
    have hMm : M ∈ a :: as := hspec.1
    have hMb : M < 255 := hbound M (by rw [hpn]; exact hMm)
    have hmax : (a :: as).max? = some M := by rw [List.max?_cons', hM]
    have hval : get_next_pod_number (.ok l) = M + 1 := by
      simp only [get_next_pod_number, hpn, hmax]
      exact Nat.mod_eq_of_lt (by omega)
    refine ⟨by simp, ?_, ?_⟩
    · intro p hp
      rw [hval]
      rcases List.mem_cons.mp hp with rfl | hp
      · have := hspec.2.1
        omega
      · have := hspec.2.2 p hp
        omega
    · intro _
      refine ⟨M, hMm, ?_, hval⟩
      intro p hp
      rcases List.mem_cons.mp hp with rfl | hp
      · exact hspec.2.1
      · exact hspec.2.2 p hp

/-- Closed witness for `get_next_pod_number_fresh`: a listing with pod
numbers 0 and 2 yields 3. -/
theorem get_next_pod_number_fresh_witness :
    ∃ m ∈ podNumbersOf [⟨"c1", "web__0__app__123e4567-e89b-12d3-a456-426614174000", "running", 0⟩,
      ⟨"c2", "web__2__app__223e4567-e89b-12d3-a456-426614174000", "running", 0⟩],
      (∀ p ∈ podNumbersOf [⟨"c1", "web__0__app__123e4567-e89b-12d3-a456-426614174000", "running", 0⟩,
        ⟨"c2", "web__2__app__223e4567-e89b-12d3-a456-426614174000", "running", 0⟩], p ≤ m) ∧
      get_next_pod_number (.ok [⟨"c1", "web__0__app__123e4567-e89b-12d3-a456-426614174000", "running", 0⟩,
        ⟨"c2", "web__2__app__223e4567-e89b-12d3-a456-426614174000", "running", 0⟩]) = m + 1 :=
  (get_next_pod_number_fresh _ (by decide)).2.2 (by decide)

/-- C1: evaluating `stop_service "web"` at the failing input.  The task
stores, instance store and health entries are cleared and the containers
and network are stopped, but the `SERVER_BACKENDS` entry `web_30080`
survives (the source removes the key `web`, which never exists) and the
container's `CONTAINER_STATS` entry survives (the source removes
`web__{uuid}`, which is not a container name) — contradicting the claim
that after `stop_service` the service appears in no store. -/
theorem stop_service_leaves_backends_and_stats :
    lookupKey "web_30080" (stop_service "web" exampleStores).1.serverBackends
        = some ["10.0.0.2:80"] ∧
      "web__0__app__123e4567-e89b-12d3-a456-426614174000"
        ∈ (stop_service "web" exampleStores).1.containerStats ∧
      (stop_service "web" exampleStores).1.scalingTasks = [] ∧
      (stop_service "web" exampleStores).1.imageCheckTasks = [] ∧
      (stop_service "web" exampleStores).1.instanceStore = [] ∧
      (stop_service "web" exampleStores).1.containerHealth = [] ∧
      RAction.stopContainer "web__0__app__123e4567-e89b-12d3-a456-426614174000"
        ∈ (stop_service "web" exampleStores).2 ∧
      RAction.removeNetwork "web__123e4567-e89b-12d3-a456-426614174000"
        ∈ (stop_service "web" exampleStores).2 := by
  decide

theorem mem_foldl_append {α β : Type} (f : α → List β) :
    ∀ (l : List α) (acc : List β) (x : β), x ∈ acc →
      x ∈ l.foldl (fun acts g => acts ++ f g) acc
  | [], _, _, hx => hx
  | g :: l, acc, x, hx =>
    mem_foldl_append f l (acc ++ f g) x (List.mem_append_left _ hx)

theorem mem_foldl_append_of_mem {α β : Type} (f : α → List β) :
    ∀ (l : List α) (acc : List β) (g : α) (x : β), g ∈ l → x ∈ f g →
      x ∈ l.foldl (fun acts h => acts ++ f h) acc
  | [], _, _, _, hg, _ => absurd hg (List.not_mem_nil _)
  | g' :: l, acc, g, x, hg, hx => by
    rcases List.mem_cons.mp hg with rfl | hg
    · exact mem_foldl_append f l _ x (List.mem_append_right _ hx)
    · exact mem_foldl_append_of_mem f l _ g x hg hx

theorem filterMap_length_of_all_isSome {α β : Type} (f : α → Option β) :
    ∀ (l : List α), (∀ a ∈ l, (f a).isSome) → (l.filterMap f).length = l.length
  | [], _ => rfl
  | a :: l, h => by
    obtain ⟨b, hb⟩ := Option.isSome_iff_exists.mp (h a (List.mem_cons_self a l))
    rw [List.filterMap_cons, hb]
    simp [filterMap_length_of_all_isSome f l
      (fun x hx => h x (List.mem_cons_of_mem a hx))]

theorem adoptContainerMeta_status (cfg : ServiceConfig)
    (inspect : String → Option String) (net : String) (c : ContainerInfo)
    (m : ContainerMetadata) (h : adoptContainerMeta cfg inspect net c = some m) :
    m.status = "adopted" := by
  unfold adoptContainerMeta at h
  rcases Option.bind_eq_some.mp h with ⟨parts, h1, h⟩
  rcases Option.bind_eq_some.mp h with ⟨cspec, h2, h⟩
  rcases Option.bind_eq_some.mp h with ⟨pcs, h3, h⟩
  rcases Option.map_eq_some'.mp h with ⟨ip, h4, h⟩
  rw [← h]

theorem adoptContainerMeta_isSome (cfg : ServiceConfig)
    (inspect : String → Option String) (net : String) (c : ContainerInfo)
    (h : ∃ parts cspec ip, parseContainerNameS c.name = some parts ∧
      cfg.spec.containers.find?
        (fun s => s.name = String.mk parts.container_name) = some cspec ∧
      cspec.ports.isSome ∧ inspect c.name = some ip) :
    (adoptContainerMeta cfg inspect net c).isSome := by
  obtain ⟨parts, cspec, ip, h1, h2, h3, h4⟩ := h
  obtain ⟨pcs, hpcs⟩ := Option.isSome_iff_exists.mp h3
  simp [adoptContainerMeta, h1, h2, hpcs, h4]

theorem adoptImageHash_mem (cfg : ServiceConfig) (digest : String → Option String)
    (cs : List ContainerInfo) (c : ContainerInfo) (parts : ContainerNameParts)
    (cspec : ContainerSpec) (h : String) (hc : c ∈ cs)
    (h1 : parseContainerNameS c.name = some parts)
    (h2 : cfg.spec.containers.find?
      (fun s => s.name = String.mk parts.container_name) = some cspec)
    (h3 : digest cspec.image = some h) :
    (cspec.name, h) ∈ imageHashesOf cfg digest cs :=
  List.mem_filterMap.mpr ⟨c, hc, by simp [adoptImageHash, h1, h2, h3]⟩

/-- C4 counterexample: with `adopt_orphans = true` and a discovered pod
group of exactly the declared container count, `handle_orphans` neither
inserts the pod into `INSTANCE_STORE` nor stops it: the container's spec
declares no `ports`, so it is skipped and the group's metadata stays
empty — refuting the claim that every complete pod group is adopted. -/
theorem handle_orphans_skips_portless_complete_pod :
    groupByUuid [orphanNoPortsContainer]
      = [("123e4567-e89b-12d3-a456-426614174000", [orphanNoPortsContainer])] ∧
    orphanNoPortsConfig.spec.containers.length = 1 ∧
    (handle_orphans orphanNoPortsConfig [orphanNoPortsContainer]
      (fun _ => some "10.0.0.1") (fun _ => some "sha256:x")).1 = [] ∧
    (handle_orphans orphanNoPortsConfig [orphanNoPortsContainer]
      (fun _ => some "10.0.0.1") (fun _ => some "sha256:x")).2 = [] := by
  decide

/-- C4 amended: with `adopt_orphans = true`, every discovered pod group of
exactly the declared container count is adopted into `INSTANCE_STORE`
with all container statuses `"adopted"` — provided each of its containers
has a parseable name, a matching container spec that declares ports, and
a successful inspection — and its `image_hash` holds the digest of every
container whose digest fetch succeeds; every group of a different size
has all of its containers stopped and its pod network removed. -/
theorem handle_orphans_adopts_and_stops (cfg : ServiceConfig)
    (orphans : List ContainerInfo) (inspect : String → Option String)
    (digest : String → Option String)
    (hadopt : cfg.adopt_orphans = true) (hne : orphans ≠ []) :
    (∀ u cs, (u, cs) ∈ groupByUuid orphans → cs ≠ [] →
      cs.length = cfg.spec.containers.length →
      (∀ c ∈ cs, ∃ parts cspec ip, parseContainerNameS c.name = some parts ∧
        cfg.spec.containers.find?
          (fun s => s.name = String.mk parts.container_name) = some cspec ∧
        cspec.ports.isSome ∧ inspect c.name = some ip) →
      ∃ meta, (u, meta) ∈ (handle_orphans cfg orphans inspect digest).1 ∧
        meta.uuid = u ∧ meta.network = cfg.name ++ "__" ++ u ∧
        meta.containers.length = cs.length ∧
        (∀ m ∈ meta.containers, m.status = "adopted") ∧
        (∀ c ∈ cs, ∀ parts cspec h, parseContainerNameS c.name = some parts →
          cfg.spec.containers.find?
            (fun s => s.name = String.mk parts.container_name) = some cspec →
          digest cspec.image = some h → (cspec.name, h) ∈ meta.image_hash)) ∧
    (∀ u cs, (u, cs) ∈ groupByUuid orphans →
      cs.length ≠ cfg.spec.containers.length →
      (∀ c ∈ cs, RAction.stopContainer c.name
        ∈ (handle_orphans cfg orphans inspect digest).2) ∧
      RAction.removeNetwork (cfg.name ++ "__" ++ u)
        ∈ (handle_orphans cfg orphans inspect digest).2) := by
  have hemp : orphans.isEmpty = false := by
    cases orphans with
    | nil => exact absurd rfl hne
    | cons a l => rfl
  have heq : handle_orphans cfg orphans inspect digest
      = (adoptInstances cfg orphans inspect digest, incompleteActs cfg orphans) := by
    rw [handle_orphans, hemp, hadopt]
    rfl
  constructor
  · intro u cs hmem hcs hlen hgood
    have hcomp : (u, cs) ∈ completeGroups cfg orphans :=
      List.mem_filter.mpr ⟨hmem, by simp [hlen]⟩
    have hlenpm : (podMetadataOf cfg inspect (cfg.name ++ "__" ++ u) cs).length
        = cs.length :=
      filterMap_length_of_all_isSome _ cs
        (fun c hcm => adoptContainerMeta_isSome cfg inspect _ c (hgood c hcm))
    have hpmne : (podMetadataOf cfg inspect (cfg.name ++ "__" ++ u) cs).isEmpty
        = false := by
      cases hpm : podMetadataOf cfg inspect (cfg.name ++ "__" ++ u) cs with
      | nil =>
        rw [hpm] at hlenpm
        exact absurd (List.length_eq_zero.mp hlenpm.symm) hcs
      | cons m ms => rfl
    refine ⟨⟨u, 0, cfg.name ++ "__" ++ u,
      podMetadataOf cfg inspect (cfg.name ++ "__" ++ u) cs,
      imageHashesOf cfg digest cs⟩, ?_, rfl, rfl, hlenpm, ?_, ?_⟩
    · rw [heq]
      exact List.mem_filterMap.mpr ⟨(u, cs), hcomp, by simp [adoptGroup, hpmne]⟩
    · intro m hm
      rcases List.mem_filterMap.mp hm with ⟨c, _, hc⟩
      exact adoptContainerMeta_status cfg inspect _ c m hc
    · intro c hc parts cspec h h1 h2 h3
      exact adoptImageHash_mem cfg digest cs c parts cspec h hc h1 h2 h3
  · intro u cs hmem hlen
    have hinc : (u, cs) ∈ incompleteGroups cfg orphans :=
      List.mem_filter.mpr ⟨hmem, by simp [hlen]⟩
    rw [heq]
    constructor
    · intro c hc
      exact mem_foldl_append_of_mem (stopGroupActs cfg) _ [] (u, cs) _ hinc
        (List.mem_append_left _ (List.mem_map.mpr ⟨c, hc, rfl⟩))
    · exact mem_foldl_append_of_mem (stopGroupActs cfg) _ [] (u, cs) _ hinc
        (List.mem_append_right _ (by simp [stopGroupActs]))

/-- Closed witness for `handle_orphans_adopts_and_stops`: the complete pod
is adopted with status `"adopted"` and its digest recorded. -/
theorem handle_orphans_adopts_and_stops_witness :
    ∃ meta, ("123e4567-e89b-12d3-a456-426614174000", meta)
        ∈ (handle_orphans adoptWitnessConfig [adoptWitnessOrphan]
          (fun _ => some "10.0.0.9") (fun _ => some "sha256:y")).1 ∧
      meta.uuid = "123e4567-e89b-12d3-a456-426614174000" ∧
      meta.network = adoptWitnessConfig.name ++ "__"
        ++ "123e4567-e89b-12d3-a456-426614174000" ∧
      meta.containers.length = [adoptWitnessOrphan].length ∧
      (∀ m ∈ meta.containers, m.status = "adopted") ∧
      (∀ c ∈ [adoptWitnessOrphan], ∀ parts cspec h,
        parseContainerNameS c.name = some parts →
        adoptWitnessConfig.spec.containers.find?
          (fun s => s.name = String.mk parts.container_name) = some cspec →
        (fun _ : String => some "sha256:y") cspec.image = some h →
        (cspec.name, h) ∈ meta.image_hash) :=
  (handle_orphans_adopts_and_stops adoptWitnessConfig [adoptWitnessOrphan]
      (fun _ => some "10.0.0.9") (fun _ => some "sha256:y") rfl (by decide)).1
    "123e4567-e89b-12d3-a456-426614174000" [adoptWitnessOrphan]
    (by decide) (by decide) (by decide)
    (by
      intro c hc
      rw [List.mem_singleton.mp hc]
      exact ⟨⟨"svc".data, 0, "c".data,
          "123e4567-e89b-12d3-a456-426614174000".data⟩,
        ⟨"c", "img", some [⟨80, none, some 30080⟩]⟩, "10.0.0.9",
        by decide, by decide, rfl, rfl⟩)

theorem sweep_acts_mono : ∀ (l : List (String × String))
    (acc : WatchState × List WAction) (x : WAction),
    x ∈ acc.2 → x ∈ (l.foldl sweepStep acc).2
  | [], _, _, hx => hx
  | _ :: l, acc, x, hx =>
    sweep_acts_mono l (sweepStep acc _) x
      (List.mem_append_left _ (List.mem_append_left _ hx))

theorem sweep_processes_stale : ∀ (l : List (String × String))
    (acc : WatchState × List WAction) (pc : String × String), pc ∈ l →
    WAction.stopServiceCall pc.2 ∈ (l.foldl sweepStep acc).2 ∧
      WAction.cleanUpCall pc.2 ∈ (l.foldl sweepStep acc).2
  | [], _, _, hm => absurd hm (List.not_mem_nil _)
  | pc' :: l, acc, pc, hm => by
    rcases List.mem_cons.mp hm with rfl | hm
    · constructor
      · exact sweep_acts_mono l _ _ (List.mem_append_right _ (by simp))
      · exact sweep_acts_mono l _ _ (List.mem_append_right _ (by simp))
    · exact sweep_processes_stale l _ pc hm

theorem sweep_tasks_mono : ∀ (l : List (String × String))
    (acc : WatchState × List WAction) (x : String),
    x ∈ (l.foldl sweepStep acc).1.scalingTasks → x ∈ acc.1.scalingTasks
  | [], _, _, hx => hx
  | pc :: l, acc, x, hx =>
    List.mem_of_mem_filter (sweep_tasks_mono l (sweepStep acc pc) x hx)

theorem sweep_removes_task : ∀ (l : List (String × String))
    (acc : WatchState × List WAction) (pc : String × String), pc ∈ l →
    pc.2 ∉ (l.foldl sweepStep acc).1.scalingTasks
  | [], _, _, hm => absurd hm (List.not_mem_nil _)
  | pc' :: l, acc, pc, hm => by
    rcases List.mem_cons.mp hm with rfl | hm
    · intro hx
      have hmem := sweep_tasks_mono l (sweepStep acc pc) pc.2 hx
      simp [sweepStep, removeElem, List.mem_filter] at hmem
    · exact sweep_removes_task l _ pc hm

theorem sweep_store_mono : ∀ (l : List (String × String))
    (acc : WatchState × List WAction) (k : String) (v : String × ServiceConfig),
    (k, v) ∈ (l.foldl sweepStep acc).1.configStore → (k, v) ∈ acc.1.configStore
  | [], _, _, _, hx => hx
  | pc :: l, acc, k, v, hx =>
    List.mem_of_mem_filter (sweep_store_mono l (sweepStep acc pc) k v hx)

theorem sweep_removes_key : ∀ (l : List (String × String))
    (acc : WatchState × List WAction) (pc : String × String), pc ∈ l →
    ∀ v, (pc.1, v) ∉ (l.foldl sweepStep acc).1.configStore
  | [], _, _, hm => absurd hm (List.not_mem_nil _)
  | pc' :: l, acc, pc, hm => by
    rcases List.mem_cons.mp hm with rfl | hm
    · intro v hx
      have hmem := sweep_store_mono l (sweepStep acc pc) pc.1 v hx
      simp [sweepStep, removeKey, List.mem_filter] at hmem
    · exact sweep_removes_key l _ pc hm

/-- C3 counterexample: the stored path `/abs/configs/a.yml` no longer
exists, the sweep runs `stop_service`/`clean_up` and removes the scaling
task, but the CONFIG_STORE entry survives: the sweep removes the key
`/abs/configs/a.yml` while the entry is keyed `configs/a.yml` — refuting
the claim that the entry is removed from CONFIG_STORE. -/
theorem process_event_sweep_misses_relative_key :
    (process_event watchOracle0 ⟨.remove, ["/abs/other.yml"]⟩ watchState0).1.configStore
      = [("configs/a.yml", ("/abs/configs/a.yml", watchCfgA))] ∧
    watchOracle0.pathExists "/abs/configs/a.yml" = false ∧
    WAction.stopServiceCall "a"
      ∈ (process_event watchOracle0 ⟨.remove, ["/abs/other.yml"]⟩ watchState0).2 ∧
    WAction.cleanUpCall "a"
      ∈ (process_event watchOracle0 ⟨.remove, ["/abs/other.yml"]⟩ watchState0).2 ∧
    (process_event watchOracle0 ⟨.remove, ["/abs/other.yml"]⟩ watchState0).1.scalingTasks
      = [] := by
  decide

/-- C3 amended: after any event, for every CONFIG_STORE entry (as left by
the event handling) whose stored path no longer exists or no longer has a
YAML extension, `process_event` runs `stop_service` and `clean_up` for
the entry's service and removes its scaling task; the entry itself is
removed from CONFIG_STORE only when its key equals the stored path's
display string. -/
theorem process_event_sweep_cleanup (ro : WatcherOracle) (ev : FsEvent)
    (st : WatchState) :
    ∀ k p cfg, (k, (p, cfg)) ∈ (eventPhase ro ev st).1.configStore →
      ¬ (ro.pathExists p = true ∧ hasYamlExt p = true) →
      WAction.stopServiceCall cfg.name ∈ (process_event ro ev st).2 ∧
      WAction.cleanUpCall cfg.name ∈ (process_event ro ev st).2 ∧
      cfg.name ∉ (process_event ro ev st).1.scalingTasks ∧
      (k = p → ∀ v, (k, v) ∉ (process_event ro ev st).1.configStore) := by
  intro k p cfg hmem hstale
  have hcond : (ro.pathExists p && hasYamlExt p) = false := by
    cases h1 : ro.pathExists p <;> cases h2 : hasYamlExt p <;> simp_all
  have hse : (p, cfg.name) ∈ staleEntries ro (eventPhase ro ev st).1 :=
    List.mem_filterMap.mpr ⟨(k, (p, cfg)), hmem, by simp [hcond]⟩
  have hsp := sweep_processes_stale (staleEntries ro (eventPhase ro ev st).1)
    (eventPhase ro ev st) (p, cfg.name) hse
  refine ⟨hsp.1, hsp.2, ?_, ?_⟩
  · exact sweep_removes_task (staleEntries ro (eventPhase ro ev st).1)
      (eventPhase ro ev st) (p, cfg.name) hse
  · intro hkp v
    rw [hkp]
    exact sweep_removes_key (staleEntries ro (eventPhase ro ev st).1)
      (eventPhase ro ev st) (p, cfg.name) hse v

/-- Closed witness for `process_event_sweep_cleanup` at a concrete stale
entry whose key equals the stored path. -/
theorem process_event_sweep_cleanup_witness :
    WAction.stopServiceCall "b"
      ∈ (process_event watchOracle0 ⟨.other, []⟩ watchStateB).2 ∧
    WAction.cleanUpCall "b"
      ∈ (process_event watchOracle0 ⟨.other, []⟩ watchStateB).2 ∧
    "b" ∉ (process_event watchOracle0 ⟨.other, []⟩ watchStateB).1.scalingTasks ∧
    ("b.yml" = "b.yml" → ∀ v,
      ("b.yml", v) ∉ (process_event watchOracle0 ⟨.other, []⟩ watchStateB).1.configStore) :=
  process_event_sweep_cleanup watchOracle0 ⟨.other, []⟩ watchStateB
    "b.yml" "b.yml" watchCfgB (by decide) (by decide)

/-- C6: when a scaling task exists, `handle_config_update` emits exactly
one `ConfigUpdate`, before the store mutation and the reconciliation, and
exactly one `Resume`, after the reconciliation — so the pair is balanced
and ordered; when no scaling task exists, neither message is sent and a
scaling task is spawned instead. -/
theorem handle_config_update_ordering (v t : Bool) (tr : List UAction)
    (h : handle_config_update v t = .ok tr) :
    (t = true →
      tr.count UAction.sendConfigUpdate = 1 ∧
      tr.count UAction.sendResume = 1 ∧
      tr.indexOf UAction.sendConfigUpdate < tr.indexOf UAction.updateStore ∧
      tr.indexOf UAction.updateStore < tr.indexOf UAction.manageSvc ∧
      tr.indexOf UAction.manageSvc < tr.indexOf UAction.sendResume) ∧
    (t = false →
      UAction.sendConfigUpdate ∉ tr ∧ UAction.sendResume ∉ tr ∧
      UAction.spawnScaleTask ∈ tr) := by
  cases v with
  | false => exact absurd h (by simp [handle_config_update])
  | true =>
    cases t with
    | false =>
      rw [handle_config_update] at h
      simp only [Bool.not_true, if_neg] at h
      injection h with h
      rw [← h]
      exact ⟨(fun hc => nomatch hc), fun _ => by decide⟩
    | true =>
      rw [handle_config_update] at h
      simp only [Bool.not_true, if_neg] at h
      injection h with h
      rw [← h]
      exact ⟨(fun _ => by decide), (fun hc => nomatch hc)⟩

/-- Closed witness for `handle_config_update_ordering` on the
existing-service path. -/
theorem handle_config_update_ordering_witness :
    ([UAction.sendConfigUpdate, UAction.updateStore, UAction.manageSvc,
      UAction.runProxySvc, UAction.sendResume].count UAction.sendConfigUpdate = 1 ∧
    [UAction.sendConfigUpdate, UAction.updateStore, UAction.manageSvc,
      UAction.runProxySvc, UAction.sendResume].count UAction.sendResume = 1 ∧
    [UAction.sendConfigUpdate, UAction.updateStore, UAction.manageSvc,
      UAction.runProxySvc, UAction.sendResume].indexOf UAction.sendConfigUpdate
      < [UAction.sendConfigUpdate, UAction.updateStore, UAction.manageSvc,
        UAction.runProxySvc, UAction.sendResume].indexOf UAction.updateStore ∧
    [UAction.sendConfigUpdate, UAction.updateStore, UAction.manageSvc,
      UAction.runProxySvc, UAction.sendResume].indexOf UAction.updateStore
      < [UAction.sendConfigUpdate, UAction.updateStore, UAction.manageSvc,
        UAction.runProxySvc, UAction.sendResume].indexOf UAction.manageSvc ∧
    [UAction.sendConfigUpdate, UAction.updateStore, UAction.manageSvc,
      UAction.runProxySvc, UAction.sendResume].indexOf UAction.manageSvc
      < [UAction.sendConfigUpdate, UAction.updateStore, UAction.manageSvc,
        UAction.runProxySvc, UAction.sendResume].indexOf UAction.sendResume) :=
  (handle_config_update_ordering true true
    [UAction.sendConfigUpdate, UAction.updateStore, UAction.manageSvc,
      UAction.runProxySvc, UAction.sendResume] rfl).1 rfl

/-- C7: the first sample of a container (no previous `StatsEntry`) yields
zero CPU percentages and zero network rates. -/
theorem first_sample_yields_zero (now : ℚ) (id : String)
    (cpu_total system_cpu : Nat) (online_cpus : ℚ)
    (mem_usage mem_limit : Nat) (networks : Option (Nat × Nat))
    (nano_cpus : Option Nat) :
    (update_container_stats now id cpu_total system_cpu online_cpus
        mem_usage mem_limit networks nano_cpus none).cpu_percentage = 0 ∧
    (update_container_stats now id cpu_total system_cpu online_cpus
        mem_usage mem_limit networks nano_cpus none).cpu_percentage_relative = 0 ∧
    (update_container_stats now id cpu_total system_cpu online_cpus
        mem_usage mem_limit networks nano_cpus none).network_rx_rate = 0 ∧
    (update_container_stats now id cpu_total system_cpu online_cpus
        mem_usage mem_limit networks nano_cpus none).network_tx_rate = 0 := by
  cases networks with
  | none => exact ⟨rfl, rfl, rfl, rfl⟩
  | some p => exact ⟨rfl, rfl, rfl, rfl⟩

/-- C9: with the `Average` strategy, `aggregate_pod_stats` is partial
exactly on the empty slice — the summed `u64` memory fields are divided
by the container count, which is zero there (a Rust panic, embedded as
`none`) — and total on every non-empty slice; it offers no error value,
so callers must guarantee at least one container stat. -/
theorem aggregate_pod_stats_average_empty (container_stats : List ContainerStatsQ) :
    (aggregate_pod_stats container_stats .Average = none ↔ container_stats = []) := by
  constructor
  · intro h
    by_contra hne
    rw [aggregate_pod_stats] at h
    simp only [List.length_eq_zero] at h
    rw [if_neg hne] at h
    exact Option.some_ne_none _ h
  · intro h
    rw [h]
    rfl

/-- C8: `parse_cpu_limit` stores cores as nanocpus: the string `"0.5"`
yields 500000000 and the JSON number 2 yields 2000000000. -/
theorem parse_cpu_limit_nanocpus :
    parse_cpu_limit (JValue.str "0.5") = .ok 500000000 ∧
      parse_cpu_limit (JValue.num 2) = .ok 2000000000 := by
  constructor
  · have h : parseDecimal "0.5"
        = some (((0 : Nat) : ℚ) + ((5 : Nat) : ℚ) / 10 ^ 1) := rfl
    have hv : f64ToU64 ((((0 : Nat) : ℚ) + ((5 : Nat) : ℚ) / 10 ^ 1) * 1000000000)
        = 500000000 := by
      rw [f64ToU64, if_neg (by norm_num)]
      have hf : ⌊(((0 : Nat) : ℚ) + ((5 : Nat) : ℚ) / 10 ^ 1) * 1000000000⌋
          = 500000000 := by norm_num
      rw [hf]
      norm_num [u64Max, Nat.min_def]
      rfl
    simp only [parse_cpu_limit, h, hv]
  · have hv : f64ToU64 ((2 : ℚ) * 1000000000) = 2000000000 := by
      rw [f64ToU64, if_neg (by norm_num)]
      have hf : ⌊(2 : ℚ) * 1000000000⌋ = 2000000000 := by norm_num
      rw [hf]
      norm_num [u64Max, Nat.min_def]
      rfl
    rw [parse_cpu_limit]
    rw [if_neg (by norm_num), hv]

/-- C10: `parse_cpu_limit` range-checks only JSON numbers — rejecting
values at most 0 or above `u64::MAX as f64 / 10⁹` — while any string
that parses as a float is accepted with no range check, so the string
`"-1"` yields `Ok(0)` (through the saturating `as u64` cast) where the
number `-1` is an error: the two forms of the same non-positive value
disagree. -/
theorem parse_cpu_limit_string_unchecked :
    (∀ q : ℚ, q ≤ 0 → parse_cpu_limit (JValue.num q)
      = .error "CPU limit out of valid range") ∧
    (∀ q : ℚ, q > (2 ^ 64 : ℚ) / 1000000000 → parse_cpu_limit (JValue.num q)
      = .error "CPU limit out of valid range") ∧
    (∀ (s : String) (q : ℚ), parseDecimal s = some q →
      parse_cpu_limit (JValue.str s) = .ok (f64ToU64 (q * 1000000000))) ∧
    parse_cpu_limit (JValue.str "-1") = .ok 0 ∧
    parse_cpu_limit (JValue.num (-1)) = .error "CPU limit out of valid range" := by
  refine ⟨?_, ?_, ?_, ?_, ?_⟩
  · intro q hq
    rw [parse_cpu_limit, if_pos (Or.inl hq)]
  · intro q hq
    rw [parse_cpu_limit, if_pos (Or.inr hq)]
  · intro s q hq
    simp only [parse_cpu_limit, hq]
  · have h : parseDecimal "-1" = some (-((1 : Nat) : ℚ)) := rfl
    have hv : f64ToU64 (-((1 : Nat) : ℚ) * 1000000000) = 0 := by
      rw [f64ToU64, if_pos (by norm_num)]
    simp only [parse_cpu_limit, h, hv]
  · rw [parse_cpu_limit, if_pos (Or.inl (by norm_num))]

/-- Closed witness for `parse_cpu_limit_string_unchecked`: the number -1
is rejected while the string `"-1"` is accepted as 0. -/
theorem parse_cpu_limit_string_unchecked_witness :
    parse_cpu_limit (JValue.num (-1)) = .error "CPU limit out of valid range" ∧
      parse_cpu_limit (JValue.str "-1") = .ok 0 :=
  ⟨parse_cpu_limit_string_unchecked.1 (-1) (by norm_num),
    parse_cpu_limit_string_unchecked.2.2.2.1⟩

